import Mathlib

/-!
# Shallow embedding of the CricketIQ multi-agent coordinator

This file embeds the multi-source collection/aggregation subsystem of the
repository (`src/cricket_manager/agent.py` together with the provider
sub-agents under `src/cricket_manager/sub_agents/`) and proves theorems about
its behaviour.

Modelling conventions:
* A provider-result Python dict is embedded as `ResultDict`, recording the
  keys the coordinator actually reads (`success`, `error`, `data_source`,
  `fallback_data`); every other payload entry is carried verbatim in `rest`.
  A key absent from the dict is `none` / `false`, matching the
  `dict.get(key, default)` accesses in the coordinator.
* A sub-agent is embedded by its observable `search_player` behaviour: a
  function of the player name, the format type and the *call shape* (whether
  the optional third `mode` argument was supplied, and with which value),
  returning either a result dict or a raised exception message
  (`Except String ResultDict`).
* `await`/`async` sequencing is modelled by ordinary sequential evaluation of
  the join loop, which is how `collect_data_from_sources` consumes its tasks;
  exceptions are modelled as `Except.error` values.
* Wall-clock time only influences the rendered elapsed-time text in the final
  report, so that text is passed in as an opaque `elapsed` string.
-/

namespace CricketIQ

/-- A provider-result Python dict as observed by the coordinator
(`cricket_manager/agent.py`).  `success` embeds `d.get('success', False)`,
`error` the optional `'error'` entry, `data_source` the optional
`'data_source'` entry, `fallback_data` embeds `d.get('fallback_data', False)`;
all remaining payload entries are carried as-is in `rest`. -/
structure ResultDict where
  success : Bool
  error : Option String
  data_source : Option String
  fallback_data : Bool
  rest : List (String × String)
deriving DecidableEq, Repr

/-- The shape of a call to a sub-agent's `search_player`: the coordinator
either calls `agent.search_player(player_name, format_type)` (no `mode`
argument, `noMode`) or `agent.search_player(player_name, format_type, mode)`
(`withMode mode`), see `_collect_from_source` lines 97–102. -/
inductive CallShape where
  | noMode : CallShape
  | withMode (mode : String) : CallShape
deriving DecidableEq, Repr

/-- A sub-agent, embedded by its `search_player` behaviour: given the player
name, the format type and the call shape, it either returns a result dict or
raises an exception (message). -/
def AgentBehaviour : Type :=
  String → String → CallShape → Except String ResultDict

/-- `self.sub_agents`: the mapping from source name to sub-agent instance
built by `setup_sub_agents` (a source name absent from the dict is `none`). -/
def SubAgents : Type := String → Option AgentBehaviour

/-- `self.data_sources` (agent.py lines 23–28): the registered provider names
in registration order. -/
def data_sources : List String :=
  ["espn_direct", "espn_google", "wikipedia", "google_search"]

/-- Python truthiness of the optional `mode` parameter of
`_collect_from_source`: `None` and the empty string are falsy. -/
def pyTruthyOptStr : Option String → Bool
  | none => false
  | some s => s ≠ ""

/-- The failure dict `{'success': False, 'error': str(e), 'data_source':
source_name}` built when a `search_player` call raises
(agent.py lines 113–117, and identically lines 86–90). -/
def exception_failure_dict (e source_name : String) : ResultDict :=
  { success := false
    error := some e
    data_source := some source_name
    fallback_data := false
    rest := [] }

/-- `CricketManager._collect_from_source` (agent.py lines 94–117), with the
Python parameter order `(agent, player_name, format_type, source_name,
mode=None)` preserved.  The whole body sits inside `try/except Exception`, so
a raising `search_player` is converted to `exception_failure_dict`. -/
def _collect_from_source (agent : AgentBehaviour)
    (player_name format_type source_name : String) (mode : Option String) :
    ResultDict :=
  let attempt : Except String ResultDict :=
    if source_name == "google_search" && pyTruthyOptStr mode then
      agent player_name format_type (CallShape.withMode (mode.getD ""))
    else
      agent player_name format_type CallShape.noMode
  match attempt with
  | Except.ok result => result
  | Except.error e => exception_failure_dict e source_name

/-- `CricketManager.collect_data_from_sources` (agent.py lines 54–92).  One
task is created per registered source present in `sub_agents` (lines 62–77)
and the join loop stores each task's value in the `results` dict under its
source name, in task-creation order (lines 80–90); the dict is embedded as an
association list in insertion order.  Note the call at line 70 for the
`google_search` source passes the arguments positionally as
`(..., format_type, mode, source_name)`, so the caller's `mode` string is
bound to the `source_name` parameter and the string `'google_search'` to the
`mode` parameter.  Each task's per-call `try/except` inside
`_collect_from_source` makes the task total, so the outer `try/except` of the
join loop (lines 81–90) never fires in this model. -/
def collect_data_from_sources (sub_agents : SubAgents)
    (player_name format_type mode : String) : List (String × ResultDict) :=
  data_sources.filterMap (fun source_name =>
    match sub_agents source_name with
    | none => none
    | some agent =>
      if source_name == "google_search" then
        some (source_name,
          _collect_from_source agent player_name format_type mode
            (some source_name))
      else
        some (source_name,
          _collect_from_source agent player_name format_type source_name none))

/-- The dict comprehension `{source: data for source, data in
data_results.items() if data.get('success', False)}` used at agent.py lines
129–132, 184–187 and 188–191. -/
def filterSuccessful (data_results : List (String × ResultDict)) :
    List (String × ResultDict) :=
  data_results.filter (fun p => p.2.success)

/-- Python `str.title()` (ASCII fragment), used for `mode.title()` at
agent.py lines 156 and 212 and for the display-name default at line 244: a
letter that does not follow a letter is uppercased, every other letter is
lowercased, non-letters are kept. -/
def pyTitleChars : List Char → Bool → List Char
  | [], _ => []
  | c :: cs, prevIsLetter =>
    (if c.isAlpha then (if prevIsLetter then c.toLower else c.toUpper) else c)
      :: pyTitleChars cs c.isAlpha

/-- Python `s.title()` on a string. -/
def pyTitle (s : String) : String :=
  String.mk (pyTitleChars s.data false)

/-- The static display-label table `source_display`
(agent.py lines 231–236). -/
def source_display : List (String × String) :=
  [("espn_direct", "📺 ESPN Cricinfo Direct"),
   ("espn_google", "🔍 ESPN via Google"),
   ("wikipedia", "📚 Wikipedia"),
   ("google_search", "🔍 Google Search")]

/-- `source_display.get(source_name, source_name.replace('_', ' ').title())`
(agent.py line 244). -/
def display_name_for (source_name : String) : String :=
  (source_display.lookup source_name).getD
    (pyTitle (source_name.replace "_" " "))

/-- One status line of the report (agent.py lines 246–253): the three-way
branch on `success` / `fallback_data`, with
`result.get('error', 'Unknown error')` in the failure case. -/
def status_line (source_name : String) (result : ResultDict) : String :=
  let display_name := display_name_for source_name
  if result.success then
    if result.fallback_data then
      "  - " ++ display_name ++ ": ✅ Success (Fallback Data)\n"
    else
      "  - " ++ display_name ++ ": ✅ Success (Live Data)\n"
  else
    let error := result.error.getD "Unknown error"
    "  - " ++ display_name ++ ": ❌ Failed (" ++ error ++ ")\n"

/-- The literal source-name list iterated at agent.py line 238 (textually
equal to `data_sources`). -/
def fixed_status_order : List String :=
  ["espn_direct", "espn_google", "wikipedia", "google_search"]

/-- `CricketManager._format_data_source_status` (agent.py lines 226–255):
starting from the header, append one `status_line` per source of
`fixed_status_order` present in `all_results` (dict membership test at line
239 is embedded as association-list lookup).  As in the source, the
`successful_results` parameter is accepted but never read. -/
def _format_data_source_status
    (all_results successful_results : List (String × ResultDict)) : String :=
  fixed_status_order.foldl
    (fun status source_name =>
      match all_results.lookup source_name with
      | some result => status ++ status_line source_name result
      | none => status)
    "📊 **Data Source Status:**\n"

/-- The analyzer sub-agent (`sub_agents/analyzer/agent.py`), embedded by the
observable behaviour of its two operations; each either returns the analysis
text or raises (message). -/
structure AnalyzerBehaviour where
  analyze_player_data :
    String → String → List (String × ResultDict) → String →
      Except String String
  compare_players_data :
    String → String → String → List (String × ResultDict) →
      List (String × ResultDict) → String → Except String String

/-- `CricketManager.analyze_player` (agent.py lines 119–170).  The whole body
is wrapped in `try/except Exception`; in this embedding the only raising step
is the analyzer call, so the handler at lines 169–170 is reached exactly when
`analyze_player_data` raises.  `elapsed` is the pre-rendered
`f"{execution_time:.2f}"` text of line 157. -/
def analyze_player (sub_agents : SubAgents) (analyzer_agent : AnalyzerBehaviour)
    (elapsed : String) (player_name format_type mode : String) : String :=
  let data_results :=
    collect_data_from_sources sub_agents player_name format_type mode
  let successful_results := filterSuccessful data_results
  if successful_results.isEmpty then
    "❌ No data sources were successful for " ++ player_name ++
      ". All sources failed."
  else
    match analyzer_agent.analyze_player_data player_name format_type
        successful_results mode with
    | Except.error e =>
      "❌ Error analyzing player " ++ player_name ++ ": " ++ e
    | Except.ok analysis_result =>
      let data_source_status :=
        _format_data_source_status data_results successful_results
      "🏏 **Cricket Player Analysis**\n\n**Player:** " ++ player_name ++
        "\n**Format:** " ++ format_type ++
        "\n**Mode:** " ++ pyTitle mode ++
        "\n**Analysis Time:** " ++ elapsed ++ " seconds\n\n" ++
        data_source_status ++ "\n\n" ++ analysis_result ++
        "\n\n---\n*Analysis completed using " ++
        toString successful_results.length ++ " data source(s)*\n"

/-- `CricketManager.compare_players` (agent.py lines 172–224), embedded under
the same conventions as `analyze_player`: two independent collection runs,
one per player; the handler at lines 223–224 is reached exactly when
`compare_players_data` raises. -/
def compare_players (sub_agents : SubAgents) (analyzer_agent : AnalyzerBehaviour)
    (elapsed : String) (player1 player2 format_type mode : String) : String :=
  let player1_data :=
    collect_data_from_sources sub_agents player1 format_type mode
  let player2_data :=
    collect_data_from_sources sub_agents player2 format_type mode
  let player1_successful := filterSuccessful player1_data
  let player2_successful := filterSuccessful player2_data
  if player1_successful.isEmpty then
    "❌ No data sources were successful for " ++ player1 ++ ". Cannot compare."
  else if player2_successful.isEmpty then
    "❌ No data sources were successful for " ++ player2 ++ ". Cannot compare."
  else
    match analyzer_agent.compare_players_data player1 player2 format_type
        player1_successful player2_successful mode with
    | Except.error e => "❌ Error comparing players: " ++ e
    | Except.ok comparison_result =>
      "⚖️ **Player Comparison**\n\n**Players:** " ++ player1 ++ " vs " ++
        player2 ++ "\n**Format:** " ++ format_type ++
        "\n**Mode:** " ++ pyTitle mode ++
        "\n**Comparison Time:** " ++ elapsed ++ " seconds\n\n" ++
        comparison_result ++ "\n\n---\n*Comparison completed using " ++
        toString player1_successful.length ++ " and " ++
        toString player2_successful.length ++ " data sources*\n"

/-- A nested `Dict[str, Dict[str, str]]` of statistics, as returned by the
`_get_fallback_stats` methods. -/
def StatsDict : Type := List (String × List (String × String))

instance : DecidableEq StatsDict := by unfold StatsDict; infer_instance

/-- The ambient effect environment a Python method could read: the clock, the
random-number state and the object's mutable attributes.  The
`_get_fallback_stats` embeddings take it as a parameter so that independence
from it is a provable statement rather than a modelling assumption. -/
structure Env where
  timeNow : Nat
  rngState : Nat
  objectState : List (String × String)

/-- `ESPNDirectAgent._get_fallback_stats`
(`sub_agents/espn_direct/agent.py` lines 185–255): branches on
`format_type.lower()` and returns literal dicts.  The body reads nothing from
`env`, exactly as the source reads no clock, randomness or mutable state. -/
def ESPNDirectAgent_get_fallback_stats (env : Env) (format_type : String) :
    StatsDict :=
  if format_type.toLower == "test" then
    [("Test",
      [("matches", "0"), ("innings", "0"), ("runs", "0"), ("highest", "0"),
       ("average", "0.00"), ("strike_rate", "0.00"), ("centuries", "0"),
       ("fifties", "0")])]
  else if format_type.toLower == "odi" then
    [("ODI",
      [("matches", "0"), ("innings", "0"), ("runs", "0"), ("highest", "0"),
       ("average", "0.00"), ("strike_rate", "0.00"), ("centuries", "0"),
       ("fifties", "0")])]
  else if format_type.toLower == "t20" then
    [("T20I",
      [("matches", "0"), ("innings", "0"), ("runs", "0"), ("highest", "0"),
       ("average", "0.00"), ("strike_rate", "0.00"), ("centuries", "0"),
       ("fifties", "0")])]
  else
    [("Test",
      [("matches", "0"), ("innings", "0"), ("runs", "0"), ("highest", "0"),
       ("average", "0.00"), ("strike_rate", "0.00"), ("centuries", "0")]),
     ("ODI",
      [("matches", "0"), ("innings", "0"), ("runs", "0"), ("highest", "0"),
       ("average", "0.00"), ("strike_rate", "0.00"), ("centuries", "0")]),
     ("T20I",
      [("matches", "0"), ("innings", "0"), ("runs", "0"), ("highest", "0"),
       ("average", "0.00"), ("strike_rate", "0.00"), ("centuries", "0")])]

/-- `ESPNGoogleAgent._get_fallback_stats`
(`sub_agents/espn_google/agent.py` lines 175–245). -/
def ESPNGoogleAgent_get_fallback_stats (env : Env) (format_type : String) :
    StatsDict :=
  if format_type.toLower == "test" then
    [("Test",
      [("matches", "113"), ("innings", "191"), ("runs", "8848"),
       ("highest", "254*"), ("average", "49.15"), ("strike_rate", "55.23"),
       ("centuries", "29"), ("fifties", "30")])]
  else if format_type.toLower == "odi" then
    [("ODI",
      [("matches", "292"), ("innings", "280"), ("runs", "13848"),
       ("highest", "183"), ("average", "58.67"), ("strike_rate", "93.17"),
       ("centuries", "50"), ("fifties", "72")])]
  else if format_type.toLower == "t20" then
    [("T20I",
      [("matches", "115"), ("innings", "109"), ("runs", "4008"),
       ("highest", "122*"), ("average", "52.73"), ("strike_rate", "137.96"),
       ("centuries", "1"), ("fifties", "37")])]
  else
    [("Test",
      [("matches", "113"), ("innings", "191"), ("runs", "8848"),
       ("highest", "254*"), ("average", "49.15"), ("strike_rate", "55.23"),
       ("centuries", "29")]),
     ("ODI",
      [("matches", "292"), ("innings", "280"), ("runs", "13848"),
       ("highest", "183"), ("average", "58.67"), ("strike_rate", "93.17"),
       ("centuries", "50")]),
     ("T20I",
      [("matches", "115"), ("innings", "109"), ("runs", "4008"),
       ("highest", "122*"), ("average", "52.73"), ("strike_rate", "137.96"),
       ("centuries", "1")])]

/-- The per-mode stat rows of `GoogleSearchAgent._get_fallback_stats` for a
single named format (`sub_agents/google_search/agent.py`, the three inner
`if mode.lower() == ...` ladders, which are identical for the three named
formats). -/
def googleModeRows (mode : String) : Option (List (String × String)) :=
  if mode.toLower == "batting" then
    some [("matches", "0"), ("innings", "0"), ("runs", "0"), ("highest", "0"),
          ("average", "0.00"), ("strike_rate", "0.00"), ("centuries", "0"),
          ("fifties", "0")]
  else if mode.toLower == "bowling" then
    some [("matches", "0"), ("innings", "0"), ("wickets", "0"),
          ("best_figures", "0/0"), ("average", "0.00"), ("economy", "0.00"),
          ("strike_rate", "0.00")]
  else if mode.toLower == "fielding" then
    some [("matches", "0"), ("catches", "0"), ("stumpings", "0"),
          ("dismissals", "0")]
  else
    none

/-- The rows of the `else:  # all formats` branch of
`GoogleSearchAgent._get_fallback_stats` (the `"0" if mode == "batting" else
"0"` conditionals are kept as in the source). -/
def googleAllFormatRows (mode : String) : List (String × String) :=
  [("matches", "0"), ("innings", "0"),
   ("runs", if mode == "batting" then "0" else "0"),
   ("highest", if mode == "batting" then "0" else "0"),
   ("average", "0.00"), ("strike_rate", "0.00"),
   ("centuries", if mode == "batting" then "0" else "0")]

/-- `GoogleSearchAgent._get_fallback_stats`
(`sub_agents/google_search/agent.py` lines 204–348): branches on
`format_type.lower()` and `mode.lower()`; a named format with an unrecognized
mode falls through every inner `if` to the final
`return {"General": ...}`. -/
def GoogleSearchAgent_get_fallback_stats (env : Env)
    (format_type mode : String) : StatsDict :=
  let generalDefault : StatsDict :=
    [("General", [("matches", "0"), ("statistics", "No data available")])]
  if format_type.toLower == "test" then
    match googleModeRows mode with
    | some rows => [("Test", rows)]
    | none => generalDefault
  else if format_type.toLower == "odi" then
    match googleModeRows mode with
    | some rows => [("ODI", rows)]
    | none => generalDefault
  else if format_type.toLower == "t20" then
    match googleModeRows mode with
    | some rows => [("T20I", rows)]
    | none => generalDefault
  else
    [("Test", googleAllFormatRows mode),
     ("ODI", googleAllFormatRows mode),
     ("T20I", googleAllFormatRows mode)]

/-! ## Support definitions for concrete witnesses -/

/-- A generic live-success result dict. -/
def live_ok_dict (source_name : String) : ResultDict :=
  { success := true
    error := none
    data_source := some source_name
    fallback_data := false
    rest := [("name", "Virat Kohli")] }

/-- An agent whose `search_player` always returns a live success. -/
def ok_agent : AgentBehaviour :=
  fun _ _ _ => Except.ok (live_ok_dict "live")

/-- An agent whose `search_player` always raises. -/
def raising_agent (e : String) : AgentBehaviour :=
  fun _ _ _ => Except.error e

/-- A `sub_agents` table holding `ok_agent` for every registered source. -/
def all_ok_sub_agents : SubAgents :=
  fun s => if s ∈ data_sources then some ok_agent else none

/-- A `sub_agents` table whose every agent raises. -/
def all_raising_sub_agents : SubAgents :=
  fun s => if s ∈ data_sources then some (raising_agent "network down") else none

/-- A benign analyzer behaviour returning fixed texts. -/
def plain_analyzer : AnalyzerBehaviour :=
  { analyze_player_data := fun _ _ _ _ => Except.ok "ANALYSIS"
    compare_players_data := fun _ _ _ _ _ _ => Except.ok "COMPARISON" }

/-- An analyzer behaviour that raises on empty input but otherwise agrees
with `plain_analyzer`. -/
def guarded_analyzer : AnalyzerBehaviour :=
  { analyze_player_data := fun _ _ d _ =>
      if d.isEmpty then Except.error "empty" else Except.ok "ANALYSIS"
    compare_players_data := fun _ _ _ d₁ d₂ _ =>
      if d₁.isEmpty || d₂.isEmpty then Except.error "empty"
      else Except.ok "COMPARISON" }

/-! ## Theorems -/

/-- C1: for every player name, format_type and mode, the mapping returned by
`collect_data_from_sources` has exactly one entry per registered provider
present in `sub_agents` — its key list is exactly the registration list
filtered to the present providers, without duplicates.  `sub_agents` is
universally quantified over all behaviours, including agents whose fetch
raises instead of returning, so no provider is dropped on exception. -/
theorem collect_one_outcome_per_registered_provider
    (sub_agents : SubAgents) (player_name format_type mode : String) :
    (collect_data_from_sources sub_agents player_name format_type mode).map
        Prod.fst =
      data_sources.filter (fun s => (sub_agents s).isSome) ∧
    ((collect_data_from_sources sub_agents player_name format_type mode).map
        Prod.fst).Nodup := by
  have hkeys :
      (collect_data_from_sources sub_agents player_name format_type mode).map
          Prod.fst =
        data_sources.filter (fun s => (sub_agents s).isSome) := by
    cases h1 : sub_agents "espn_direct" <;>
      cases h2 : sub_agents "espn_google" <;>
      cases h3 : sub_agents "wikipedia" <;>
      cases h4 : sub_agents "google_search" <;>
      simp [collect_data_from_sources, data_sources, h1, h2, h3, h4]
  refine ⟨hkeys, hkeys ▸ ?_⟩
  exact List.Nodup.filter _ (by decide)

/-- C8: each provider's fallback-data generator is deterministic: its result
is independent of the effect environment (clock, randomness, mutable state),
so two calls with the same arguments return equal payloads. -/
theorem fallback_stats_deterministic (e₁ e₂ : Env)
    (format_type mode : String) :
    ESPNDirectAgent_get_fallback_stats e₁ format_type =
        ESPNDirectAgent_get_fallback_stats e₂ format_type ∧
    ESPNGoogleAgent_get_fallback_stats e₁ format_type =
        ESPNGoogleAgent_get_fallback_stats e₂ format_type ∧
    GoogleSearchAgent_get_fallback_stats e₁ format_type mode =
        GoogleSearchAgent_get_fallback_stats e₂ format_type mode :=
  ⟨rfl, rfl, rfl⟩

/-- C2: the successful subset is exactly the set of collected outcomes whose
success flag is true, keyed by provider id with the payload dict preserved
as-is (first conjunct), and both `analyze_player` and `compare_players` pass
exactly that subset onward to the analyzer: their results depend on the
analyzer only through its value at that subset (second and third
conjuncts). -/
theorem successful_subset_exact :
    (∀ (d : List (String × ResultDict)) (s : String) (r : ResultDict),
        (s, r) ∈ filterSuccessful d ↔ ((s, r) ∈ d ∧ r.success = true)) ∧
    (∀ (sub_agents : SubAgents) (a₁ a₂ : AnalyzerBehaviour)
        (elapsed pn ft mode : String),
        a₁.analyze_player_data pn ft
            (filterSuccessful
              (collect_data_from_sources sub_agents pn ft mode)) mode =
          a₂.analyze_player_data pn ft
            (filterSuccessful
              (collect_data_from_sources sub_agents pn ft mode)) mode →
        analyze_player sub_agents a₁ elapsed pn ft mode =
          analyze_player sub_agents a₂ elapsed pn ft mode) ∧
    (∀ (sub_agents : SubAgents) (a₁ a₂ : AnalyzerBehaviour)
        (elapsed p1 p2 ft mode : String),
        a₁.compare_players_data p1 p2 ft
            (filterSuccessful
              (collect_data_from_sources sub_agents p1 ft mode))
            (filterSuccessful
              (collect_data_from_sources sub_agents p2 ft mode)) mode =
          a₂.compare_players_data p1 p2 ft
            (filterSuccessful
              (collect_data_from_sources sub_agents p1 ft mode))
            (filterSuccessful
              (collect_data_from_sources sub_agents p2 ft mode)) mode →
        compare_players sub_agents a₁ elapsed p1 p2 ft mode =
          compare_players sub_agents a₂ elapsed p1 p2 ft mode) := by
  refine ⟨?_, ?_, ?_⟩
  · intro d s r
    simp [filterSuccessful, List.mem_filter]
  · intro sub_agents a₁ a₂ elapsed pn ft mode h
    simp only [analyze_player, h]
  · intro sub_agents a₁ a₂ elapsed p1 p2 ft mode h
    simp only [compare_players, h]

/-- Witness for C2 at a concrete input: `plain_analyzer` and
`guarded_analyzer` differ (on empty input) but agree on the successful subset
actually collected, so the two analysis reports coincide. -/
theorem successful_subset_exact_witness :
    analyze_player all_ok_sub_agents plain_analyzer "0.01" "Virat Kohli"
        "all" "batting" =
      analyze_player all_ok_sub_agents guarded_analyzer "0.01" "Virat Kohli"
        "all" "batting" :=
  successful_subset_exact.2.1 all_ok_sub_agents plain_analyzer
    guarded_analyzer "0.01" "Virat Kohli" "all" "batting" rfl

/-- C4: whenever every collected outcome has success false, `analyze_player`
returns the terminal "all sources failed" report, and the analyzer is never
consulted: the result is the same for every analyzer behaviour. -/
theorem analyze_all_failed_terminal (sub_agents : SubAgents)
    (analyzer_agent : AnalyzerBehaviour) (elapsed pn ft mode : String)
    (h : filterSuccessful
        (collect_data_from_sources sub_agents pn ft mode) = []) :
    analyze_player sub_agents analyzer_agent elapsed pn ft mode =
      "❌ No data sources were successful for " ++ pn ++
        ". All sources failed." ∧
    (∀ analyzer₂ : AnalyzerBehaviour,
        analyze_player sub_agents analyzer_agent elapsed pn ft mode =
          analyze_player sub_agents analyzer₂ elapsed pn ft mode) := by
  constructor
  · simp only [analyze_player, h, List.isEmpty_nil, if_pos]
  · intro analyzer₂
    simp only [analyze_player, h, List.isEmpty_nil, if_pos]

/-- Witness for C4: with every provider raising, the successful subset is
empty and the report is the terminal failure string. -/
theorem analyze_all_failed_terminal_witness :
    analyze_player all_raising_sub_agents plain_analyzer "0.01" "Nobody"
        "all" "batting" =
      "❌ No data sources were successful for " ++ "Nobody" ++
        ". All sources failed." :=
  (analyze_all_failed_terminal all_raising_sub_agents plain_analyzer "0.01"
    "Nobody" "all" "batting" (by decide)).1

lemma isEmpty_false_of_ne_nil {α : Type} {l : List α} (h : l ≠ []) :
    l.isEmpty = false := by
  cases l with
  | nil => exact absurd rfl h
  | cons a t => rfl

/-- C7: the coordinator boundary never lets an exception escape.  First
conjunct: a provider whose fetch raises still yields an outcome for that
provider in the collection (converted to the failure dict built in the
`except` handler; for the `google_search` source the dict's `data_source`
carries the caller's mode string, due to the positional-argument swap).
Second and third conjuncts: when the analyzer raises, `analyze_player` and
`compare_players` return the terminal failure report carrying the exception's
message — their result type is `String` throughout, so every public operation
returns a report and never throws. -/
theorem coordinator_exception_boundary :
    (∀ (sub_agents : SubAgents) (pn ft mode s e : String),
        s ∈ data_sources → sub_agents s = some (raising_agent e) →
        (collect_data_from_sources sub_agents pn ft mode).lookup s =
          some (exception_failure_dict e
            (if s == "google_search" then mode else s))) ∧
    (∀ (sub_agents : SubAgents) (a : AnalyzerBehaviour)
        (elapsed pn ft mode e : String),
        a.analyze_player_data pn ft
            (filterSuccessful
              (collect_data_from_sources sub_agents pn ft mode)) mode =
          Except.error e →
        filterSuccessful (collect_data_from_sources sub_agents pn ft mode) ≠
          [] →
        analyze_player sub_agents a elapsed pn ft mode =
          "❌ Error analyzing player " ++ pn ++ ": " ++ e) ∧
    (∀ (sub_agents : SubAgents) (a : AnalyzerBehaviour)
        (elapsed p1 p2 ft mode e : String),
        a.compare_players_data p1 p2 ft
            (filterSuccessful
              (collect_data_from_sources sub_agents p1 ft mode))
            (filterSuccessful
              (collect_data_from_sources sub_agents p2 ft mode)) mode =
          Except.error e →
        filterSuccessful (collect_data_from_sources sub_agents p1 ft mode) ≠
          [] →
        filterSuccessful (collect_data_from_sources sub_agents p2 ft mode) ≠
          [] →
        compare_players sub_agents a elapsed p1 p2 ft mode =
          "❌ Error comparing players: " ++ e) := by
  refine ⟨?_, ?_, ?_⟩
  · intro sub_agents pn ft mode s e hs hagent
    simp only [data_sources, List.mem_cons, List.mem_singleton,
      List.not_mem_nil, or_false] at hs
    rcases hs with rfl | rfl | rfl | rfl
    · simp [collect_data_from_sources, data_sources, hagent,
        _collect_from_source, raising_agent, List.lookup]
    · cases h1 : sub_agents "espn_direct" <;>
        simp [collect_data_from_sources, data_sources, h1, hagent,
          _collect_from_source, raising_agent, List.lookup]
    · cases h1 : sub_agents "espn_direct" <;>
        cases h2 : sub_agents "espn_google" <;>
        simp [collect_data_from_sources, data_sources, h1, h2, hagent,
          _collect_from_source, raising_agent, List.lookup]
    · cases h1 : sub_agents "espn_direct" <;>
        cases h2 : sub_agents "espn_google" <;>
        cases h3 : sub_agents "wikipedia" <;>
        simp [collect_data_from_sources, data_sources, h1, h2, h3, hagent,
          _collect_from_source, raising_agent, List.lookup, ite_self]
  · intro sub_agents a elapsed pn ft mode e herr hne
    simp only [analyze_player, isEmpty_false_of_ne_nil hne, herr,
      Bool.false_eq_true, if_false]
  · intro sub_agents a elapsed p1 p2 ft mode e herr hne1 hne2
    simp only [compare_players, isEmpty_false_of_ne_nil hne1,
      isEmpty_false_of_ne_nil hne2, herr, Bool.false_eq_true, if_false]

/-- Witness for C7 at concrete inputs: a raising `wikipedia` provider still
produces an outcome, and a raising analyzer yields the terminal failure
report. -/
theorem coordinator_exception_boundary_witness :
    (collect_data_from_sources
        (fun s => if s ∈ data_sources
          then some (raising_agent "boom") else none)
        "Virat Kohli" "all" "batting").lookup "wikipedia" =
      some (exception_failure_dict "boom" "wikipedia") ∧
    analyze_player all_ok_sub_agents
        { analyze_player_data := fun _ _ _ _ => Except.error "gemini down"
          compare_players_data := fun _ _ _ _ _ _ =>
            Except.error "gemini down" }
        "0.01" "Virat Kohli" "all" "batting" =
      "❌ Error analyzing player " ++ "Virat Kohli" ++ ": " ++
        "gemini down" := by
  constructor
  · exact coordinator_exception_boundary.1
      (fun s => if s ∈ data_sources then some (raising_agent "boom") else none)
      "Virat Kohli" "all" "batting" "wikipedia" "boom" (by decide) rfl
  · exact coordinator_exception_boundary.2.1 all_ok_sub_agents
      { analyze_player_data := fun _ _ _ _ => Except.error "gemini down"
        compare_players_data := fun _ _ _ _ _ _ => Except.error "gemini down" }
      "0.01" "Virat Kohli" "all" "batting" "gemini down" rfl (by decide)

/-- C5: `compare_players` requires both subjects to have at least one
successful source: an empty subset for player1 yields the terminal failure
naming player1 (for every analyzer — it is never consulted); otherwise an
empty subset for player2 yields the failure naming player2; only when both
subsets are non-empty is the analyzer's comparison invoked, with the two
subsets coming from the two independent collection runs (one per subject). -/
theorem compare_requires_both_subjects (sub_agents : SubAgents)
    (a : AnalyzerBehaviour) (elapsed p1 p2 ft mode : String) :
    (filterSuccessful (collect_data_from_sources sub_agents p1 ft mode) =
        [] →
      compare_players sub_agents a elapsed p1 p2 ft mode =
        "❌ No data sources were successful for " ++ p1 ++
          ". Cannot compare.") ∧
    (filterSuccessful (collect_data_from_sources sub_agents p1 ft mode) ≠
        [] →
      filterSuccessful (collect_data_from_sources sub_agents p2 ft mode) =
        [] →
      compare_players sub_agents a elapsed p1 p2 ft mode =
        "❌ No data sources were successful for " ++ p2 ++
          ". Cannot compare.") ∧
    (filterSuccessful (collect_data_from_sources sub_agents p1 ft mode) ≠
        [] →
      filterSuccessful (collect_data_from_sources sub_agents p2 ft mode) ≠
        [] →
      compare_players sub_agents a elapsed p1 p2 ft mode =
        match a.compare_players_data p1 p2 ft
            (filterSuccessful
              (collect_data_from_sources sub_agents p1 ft mode))
            (filterSuccessful
              (collect_data_from_sources sub_agents p2 ft mode)) mode with
        | Except.error e => "❌ Error comparing players: " ++ e
        | Except.ok comparison_result =>
          "⚖️ **Player Comparison**\n\n**Players:** " ++ p1 ++ " vs " ++
            p2 ++ "\n**Format:** " ++ ft ++
            "\n**Mode:** " ++ pyTitle mode ++
            "\n**Comparison Time:** " ++ elapsed ++ " seconds\n\n" ++
            comparison_result ++ "\n\n---\n*Comparison completed using " ++
            toString (filterSuccessful
              (collect_data_from_sources sub_agents p1 ft mode)).length ++
            " and " ++
            toString (filterSuccessful
              (collect_data_from_sources sub_agents p2 ft mode)).length ++
            " data sources*\n") := by
  refine ⟨?_, ?_, ?_⟩
  · intro h1
    simp only [compare_players, h1, List.isEmpty_nil, if_pos]
  · intro h1 h2
    simp only [compare_players, isEmpty_false_of_ne_nil h1, h2,
      List.isEmpty_nil, Bool.false_eq_true, if_false, if_pos]
  · intro h1 h2
    simp only [compare_players, isEmpty_false_of_ne_nil h1,
      isEmpty_false_of_ne_nil h2, Bool.false_eq_true, if_false]

/-- Witness for C5 at concrete inputs: subject "A" has four successful
sources, subject "B" has zero, and the comparison fails naming "B"
specifically. -/
theorem compare_requires_both_subjects_witness :
    compare_players
        (fun s => if s ∈ data_sources
          then some (fun pn _ _ =>
            if pn = "A" then Except.ok (live_ok_dict s)
            else Except.error "no data")
          else none)
        plain_analyzer "0.01" "A" "B" "all" "batting" =
      "❌ No data sources were successful for " ++ "B" ++
        ". Cannot compare." :=
  (compare_requires_both_subjects
      (fun s => if s ∈ data_sources
        then some (fun pn _ _ =>
          if pn = "A" then Except.ok (live_ok_dict s)
          else Except.error "no data")
        else none)
      plain_analyzer "0.01" "A" "B" "all" "batting").2.1
    (by decide) (by decide)

/-- The three fixed textual outcome categories of the status report. -/
inductive StatusCategory where
  | liveSuccess : StatusCategory
  | fallbackSuccess : StatusCategory
  | failed (reason : String) : StatusCategory
deriving DecidableEq, Repr

/-- The category an outcome dict is mapped to by the status report
(the branch structure of agent.py lines 241–253). -/
def categoryOf (r : ResultDict) : StatusCategory :=
  if r.success then
    if r.fallback_data then StatusCategory.fallbackSuccess
    else StatusCategory.liveSuccess
  else StatusCategory.failed (r.error.getD "Unknown error")

/-- The fixed text of each category as rendered by the status report. -/
def categoryText : StatusCategory → String
  | StatusCategory.liveSuccess => "✅ Success (Live Data)"
  | StatusCategory.fallbackSuccess => "✅ Success (Fallback Data)"
  | StatusCategory.failed reason => "❌ Failed (" ++ reason ++ ")"

lemma status_line_eq (s : String) (r : ResultDict) :
    status_line s r =
      "  - " ++ display_name_for s ++ ": " ++ categoryText (categoryOf r) ++
        "\n" := by
  unfold status_line categoryOf categoryText
  cases hs : r.success <;> cases hf : r.fallback_data <;>
    · simp only [Bool.false_eq_true, if_false, if_true]
      apply String.ext
      simp [String.data_append]

/-- C6: the status report built by `_format_data_source_status` iterates the
providers in the fixed registration order (which equals `data_sources`),
renders each present outcome as its static display label followed by exactly
one of the three fixed textual categories (live success, fallback success, or
failed with the outcome's error reason), depends on the collected outcomes
only through their per-provider lookup (hence is independent of completion
order and of the `successful_results` argument), and takes every display
label for the four registered providers from the static `source_display`
table. -/
theorem status_report_fixed_order_and_categories :
    (∀ all_results successful_results : List (String × ResultDict),
        _format_data_source_status all_results successful_results =
          "📊 **Data Source Status:**\n" ++
            String.join (fixed_status_order.map (fun source_name =>
              match all_results.lookup source_name with
              | some r =>
                "  - " ++ display_name_for source_name ++ ": " ++
                  categoryText (categoryOf r) ++ "\n"
              | none => ""))) ∧
    (∀ (res₁ sr₁ res₂ sr₂ : List (String × ResultDict)),
        (∀ s, s ∈ fixed_status_order → res₁.lookup s = res₂.lookup s) →
        _format_data_source_status res₁ sr₁ =
          _format_data_source_status res₂ sr₂) ∧
    (∀ s, s ∈ fixed_status_order →
        (source_display.lookup s).isSome = true) ∧
    fixed_status_order = data_sources := by
  refine ⟨?_, ?_, ?_, ?_⟩
  · intro all_results successful_results
    simp only [_format_data_source_status, fixed_status_order, List.foldl_cons,
      List.foldl_nil, List.map_cons, List.map_nil, String.join]
    cases h1 : all_results.lookup "espn_direct" <;>
      cases h2 : all_results.lookup "espn_google" <;>
      cases h3 : all_results.lookup "wikipedia" <;>
      cases h4 : all_results.lookup "google_search" <;>
      simp [h1, h2, h3, h4, status_line_eq, String.append_assoc,
        String.append_empty, String.empty_append]
  · intro res₁ sr₁ res₂ sr₂ h
    simp only [_format_data_source_status, fixed_status_order,
      List.foldl_cons, List.foldl_nil]
    rw [h "espn_direct" (by decide), h "espn_google" (by decide),
      h "wikipedia" (by decide), h "google_search" (by decide)]
  · intro s hs
    fin_cases hs <;> decide
  · rfl

/-- Witness for C6: two collections holding the same outcomes in different
orders (and arbitrary different `successful_results` arguments) render the
same status report. -/
theorem status_report_fixed_order_and_categories_witness :
    _format_data_source_status
        [("espn_direct", live_ok_dict "espn_direct"),
         ("wikipedia", exception_failure_dict "timeout" "wikipedia")]
        [("espn_direct", live_ok_dict "espn_direct")] =
      _format_data_source_status
        [("wikipedia", exception_failure_dict "timeout" "wikipedia"),
         ("espn_direct", live_ok_dict "espn_direct")]
        [] :=
  status_report_fixed_order_and_categories.2.1
    [("espn_direct", live_ok_dict "espn_direct"),
     ("wikipedia", exception_failure_dict "timeout" "wikipedia")]
    [("espn_direct", live_ok_dict "espn_direct")]
    [("wikipedia", exception_failure_dict "timeout" "wikipedia"),
     ("espn_direct", live_ok_dict "espn_direct")]
    []
    (by intro s hs; fin_cases hs <;> decide)

/-! ## Substring machinery (kernel-computable) -/

/-- `startsWithChars pat l`: `pat` is an initial segment of `l`. -/
def startsWithChars : List Char → List Char → Bool
  | [], _ => true
  | _ :: _, [] => false
  | p :: ps, c :: cs => p == c && startsWithChars ps cs

/-- `occursInChars pat l`: `pat` occurs as a contiguous segment of `l`. -/
def occursInChars (pat : List Char) : List Char → Bool
  | [] => startsWithChars pat []
  | c :: cs => startsWithChars pat (c :: cs) || occursInChars pat cs

/-- The string `pat` occurs as a contiguous substring of `s`. -/
def strContainsSub (s pat : String) : Bool :=
  occursInChars pat.data s.data

/-- The string `s` ends with the string `t`. -/
def strEndsWith (s t : String) : Bool :=
  startsWithChars t.data.reverse s.data.reverse

lemma startsWithChars_of_append (p : List Char) :
    ∀ l z : List Char, startsWithChars p l = true →
      startsWithChars p (l ++ z) = true := by
  induction p with
  | nil => intro l z _; rfl
  | cons c cs ih =>
    intro l z h
    cases l with
    | nil => simp [startsWithChars] at h
    | cons d ds =>
      simp only [startsWithChars, Bool.and_eq_true] at h
      simp only [List.cons_append, startsWithChars, Bool.and_eq_true]
      exact ⟨h.1, ih ds z h.2⟩

lemma startsWithChars_self_append (l z : List Char) :
    startsWithChars l (l ++ z) = true := by
  induction l with
  | nil => rfl
  | cons c cs ih => simp [startsWithChars, ih]

lemma strEndsWith_self (s : String) : strEndsWith s s = true := by
  unfold strEndsWith
  simpa using startsWithChars_self_append s.data.reverse []

lemma strEndsWith_concat_tail (x y : String) :
    strEndsWith (x ++ y) y = true := by
  unfold strEndsWith
  rw [String.data_append, List.reverse_append]
  exact startsWithChars_of_append _ _ _
    (by simpa using startsWithChars_self_append y.data.reverse [])

set_option maxRecDepth 20000 in
/-- Counterexample for C3: at a concrete input with four successful sources,
the report produced by `analyze_player` nowhere contains the phrase
"sources succeeded" — so no trailing summary line states
"k/N sources succeeded". -/
theorem analyze_report_no_sources_succeeded_phrase :
    filterSuccessful
        (collect_data_from_sources all_ok_sub_agents "Virat Kohli" "all"
          "batting") ≠ [] ∧
    strContainsSub
        (analyze_player all_ok_sub_agents plain_analyzer "0.01" "Virat Kohli"
          "all" "batting")
        "sources succeeded" = false := by
  constructor
  · decide
  · decide

/-- C3 (amended): when at least one source succeeds (and the analyzer returns
text), the report produced by `analyze_player` ends with the trailing summary
line `*Analysis completed using k data source(s)*` where `k` is the size of
the successful subset; the total number of collected outcomes does not appear
in that line. -/
theorem analyze_report_trailing_summary_line (sub_agents : SubAgents)
    (a : AnalyzerBehaviour) (elapsed pn ft mode text : String)
    (hok : a.analyze_player_data pn ft
        (filterSuccessful
          (collect_data_from_sources sub_agents pn ft mode)) mode =
      Except.ok text)
    (hne : filterSuccessful
        (collect_data_from_sources sub_agents pn ft mode) ≠ []) :
    analyze_player sub_agents a elapsed pn ft mode =
      ("🏏 **Cricket Player Analysis**\n\n**Player:** " ++ pn ++
        "\n**Format:** " ++ ft ++ "\n**Mode:** " ++ pyTitle mode ++
        "\n**Analysis Time:** " ++ elapsed ++ " seconds\n\n" ++
        _format_data_source_status
          (collect_data_from_sources sub_agents pn ft mode)
          (filterSuccessful
            (collect_data_from_sources sub_agents pn ft mode)) ++
        "\n\n" ++ text ++ "\n\n---\n") ++
      ("*Analysis completed using " ++
        toString (filterSuccessful
          (collect_data_from_sources sub_agents pn ft mode)).length ++
        " data source(s)*\n") ∧
    strEndsWith (analyze_player sub_agents a elapsed pn ft mode)
      ("*Analysis completed using " ++
        toString (filterSuccessful
          (collect_data_from_sources sub_agents pn ft mode)).length ++
        " data source(s)*\n") = true := by
  have hmain : analyze_player sub_agents a elapsed pn ft mode =
      ("🏏 **Cricket Player Analysis**\n\n**Player:** " ++ pn ++
        "\n**Format:** " ++ ft ++ "\n**Mode:** " ++ pyTitle mode ++
        "\n**Analysis Time:** " ++ elapsed ++ " seconds\n\n" ++
        _format_data_source_status
          (collect_data_from_sources sub_agents pn ft mode)
          (filterSuccessful
            (collect_data_from_sources sub_agents pn ft mode)) ++
        "\n\n" ++ text ++ "\n\n---\n") ++
      ("*Analysis completed using " ++
        toString (filterSuccessful
          (collect_data_from_sources sub_agents pn ft mode)).length ++
        " data source(s)*\n") := by
    simp only [analyze_player, isEmpty_false_of_ne_nil hne, hok,
      Bool.false_eq_true, if_false]
    apply String.ext
    simp [String.data_append]
  exact ⟨hmain, by rw [hmain]; exact strEndsWith_concat_tail _ _⟩

/-- Witness for the amended C3 at a concrete input. -/
theorem analyze_report_trailing_summary_line_witness :
    strEndsWith
        (analyze_player all_ok_sub_agents plain_analyzer "0.01" "Virat Kohli"
          "all" "batting")
        ("*Analysis completed using " ++
          toString (filterSuccessful
            (collect_data_from_sources all_ok_sub_agents "Virat Kohli" "all"
              "batting")).length ++
          " data source(s)*\n") = true :=
  (analyze_report_trailing_summary_line all_ok_sub_agents plain_analyzer
    "0.01" "Virat Kohli" "all" "batting" "ANALYSIS" rfl (by decide)).2

/-- The effective mode of a call to `GoogleSearchAgent.search_player`, read
off its signature `search_player(self, player_name, format_type="all",
mode="batting")` (google_search/agent.py line 39): a call without the third
argument uses the default `"batting"`. -/
def google_search_effective_mode : CallShape → String
  | CallShape.noMode => "batting"
  | CallShape.withMode m => m

/-- An agent that records in its result which call shape it received. -/
def probe_agent : AgentBehaviour := fun _ _ shape =>
  Except.ok
    { success := true
      error := none
      data_source := none
      fallback_data := false
      rest := [("mode_argument",
        match shape with
        | CallShape.noMode => "ABSENT"
        | CallShape.withMode m => "SUPPLIED:" ++ m)] }

/-- A `sub_agents` table holding `probe_agent` for every registered source. -/
def probe_sub_agents : SubAgents :=
  fun s => if s ∈ data_sources then some probe_agent else none

/-- Counterexample for C10: when the caller's mode is the literal string
"google_search", the condition `source_name == 'google_search' and mode`
inside `_collect_from_source` holds (both parameters then hold
"google_search"), so the mode-forwarding branch *does* execute for the
google_search provider: the agent is invoked **with** a third argument
(the string "google_search"), not without one. -/
theorem google_mode_forwarding_counterexample :
    (collect_data_from_sources probe_sub_agents "Virat Kohli" "all"
        "google_search").lookup "google_search" =
      some { success := true
             error := none
             data_source := none
             fallback_data := false
             rest := [("mode_argument", "SUPPLIED:google_search")] } := by
  decide

/-- C10 (amended): for every mode value other than the literal string
"google_search", the google_search provider's `search_player` is invoked
without the mode argument (call shape `noMode`, so its default "batting" is
used, per `google_search_effective_mode`); and if that fetch raises, the
resulting failure dict carries `data_source` equal to the caller's mode
string — though the outcome is still keyed under "google_search". -/
theorem google_search_invoked_without_mode (sub_agents : SubAgents)
    (agent : AgentBehaviour) (pn ft mode : String)
    (hg : sub_agents "google_search" = some agent)
    (hm : mode ≠ "google_search") :
    (collect_data_from_sources sub_agents pn ft mode).lookup
        "google_search" =
      some (match agent pn ft CallShape.noMode with
            | Except.ok result => result
            | Except.error e => exception_failure_dict e mode) ∧
    google_search_effective_mode CallShape.noMode = "batting" := by
  have hbeq : (mode == "google_search") = false := beq_eq_false_iff_ne.mpr hm
  refine ⟨?_, rfl⟩
  cases h1 : sub_agents "espn_direct" <;>
    cases h2 : sub_agents "espn_google" <;>
    cases h3 : sub_agents "wikipedia" <;>
    simp [collect_data_from_sources, data_sources, h1, h2, h3, hg,
      _collect_from_source, pyTruthyOptStr, hbeq, List.lookup]

/-- Witness for the amended C10 at a concrete input (mode "bowling"): the
probe records that the google_search agent received no mode argument. -/
theorem google_search_invoked_without_mode_witness :
    (collect_data_from_sources probe_sub_agents "Virat Kohli" "all"
        "bowling").lookup "google_search" =
      some (match probe_agent "Virat Kohli" "all" CallShape.noMode with
            | Except.ok result => result
            | Except.error e => exception_failure_dict e "bowling") :=
  (google_search_invoked_without_mode probe_sub_agents probe_agent
    "Virat Kohli" "all" "bowling" rfl (by decide)).1

end CricketIQ
